import Mathlib

/-!
Verification of the GoPro SDK core against its specification.

The definitions below are shallow embeddings of the Python source:

* the BLE frame codec of connection/ble_manager.py
  (methods GoProBleManager._fragment and GoProBleManager._on_notification),
* the WiFi association strategy of commands/ble_commands.py (connect_to_wifi),
* the COHN provisioning poll loop of commands/ble_commands.py
  (_wait_for_cohn_provisioned),
* the HTTPS readiness probe of connection/http_manager.py (_wait_for_https_ready),
* the offline-mode gating of client.py, and
* the credential IP-refresh branch of GoProClient.open in client.py.

Bytes are modelled as natural numbers; byte strings as lists of naturals.
-/

/-! ## FrameCodec: reassembly (ble_manager.py, _on_notification) -/

/-- Per-connection reassembly state of GoProBleManager:
accumulating_response, bytes_remaining (an integer: the source decrements it
below zero on overflow before detecting the error) and the pending
header_buffer. -/
structure RState where
  acc : List Nat
  rem : Int
  hb : List Nat
deriving Repr, DecidableEq

/-- The idle reassembly state: empty accumulator, zero bytes remaining,
empty header buffer. -/
def initState : RState := ⟨[], 0, []⟩

/-- Shared tail of _on_notification (ble_manager.py lines 380-408): after the
accumulator has been extended and bytes_remaining decremented, a negative
remainder resets the state (framing error, logged not raised), a zero
remainder emits the accumulated message and resets the state, and a positive
remainder awaits more data.  The header buffer is empty on every path that
reaches this point. -/
def mkResult (acc : List Nat) (rem : Int) : Option (List Nat) × RState :=
  if rem < 0 then (none, initState)
  else if rem = 0 then (some acc, initState)
  else (none, ⟨acc, rem, []⟩)

/-- GoProBleManager._on_notification (ble_manager.py lines 300-408), with the
queue push abstracted into the returned Option.  An empty notification is
ignored; a pending header buffer is prepended to the notification; bit 7 of
the first byte marks a continuation packet; otherwise bits 6-5 select the
header class (0 general, 1 extended 13-bit, 2 extended 16-bit, 3 unknown);
a new-message packet shorter than its header is stashed whole into the
header buffer (after the accumulator was already reset at line 340). -/
def onNotification (data : List Nat) (s : RState) : Option (List Nat) × RState :=
  match data with
  | [] => (none, s)
  | _ :: _ =>
    match s.hb ++ data with
    | [] => (none, s)
    | b0 :: rest =>
      if b0 &&& 0x80 ≠ 0 then
        mkResult (s.acc ++ rest) (s.rem - rest.length)
      else if (b0 &&& 0x60) >>> 5 = 0 then
        mkResult rest ((b0 &&& 0x1F : Nat) - (rest.length : Int))
      else if (b0 &&& 0x60) >>> 5 = 1 then
        match rest with
        | [] => (none, ⟨[], s.rem, b0 :: rest⟩)
        | b1 :: rest2 =>
          mkResult rest2 ((((b0 &&& 0x1F) <<< 8) ||| b1 : Nat) - (rest2.length : Int))
      else if (b0 &&& 0x60) >>> 5 = 2 then
        match rest with
        | b1 :: b2 :: rest3 =>
          mkResult rest3 (((b1 <<< 8) ||| b2 : Nat) - (rest3.length : Int))
        | _ => (none, ⟨[], s.rem, b0 :: rest⟩)
      else
        (none, ⟨[], s.rem, []⟩)

/-- Feed a sequence of notifications in order, collecting the per-notification
outputs (none, or a completed message) and the final state. -/
def feedTrace (pkts : List (List Nat)) (s : RState) : List (Option (List Nat)) × RState :=
  match pkts with
  | [] => ([], s)
  | p :: ps =>
    let r := onNotification p s
    let t := feedTrace ps r.2
    (r.1 :: t.1, t.2)

/-! ## FrameCodec: fragmentation (ble_manager.py, _fragment) -/

/-- The continuation packets of _fragment (ble_manager.py lines 486-490):
each is a 0x80 marker byte followed by up to mtu - 1 = 19 payload bytes. -/
def contPackets (data : List Nat) : List (List Nat) :=
  match data with
  | [] => []
  | x :: xs => (0x80 :: (x :: xs).take 19) :: contPackets ((x :: xs).drop 19)
termination_by data.length
decreasing_by simp only [List.length_drop, List.length_cons]; omega

/-- GoProBleManager._fragment (ble_manager.py lines 436-493), mtu = 20.
A payload shorter than 8192 bytes gets a 2-byte extended 13-bit header
(0x20 prefix, 5 high length bits in byte 0, 8 low bits in byte 1); a payload
shorter than 65536 bytes gets a 3-byte extended 16-bit header (0x40 prefix
byte, then the 16-bit length); anything longer raises ValueError.  The first
packet is the header plus as much payload as fits in 20 bytes; the rest of
the payload goes into continuation packets. -/
def fragment (data : List Nat) : Except String (List (List Nat)) :=
  let dataLen := data.length
  if dataLen < 8192 then
    let header := [0x20 ||| ((dataLen >>> 8) &&& 0x1F), dataLen &&& 0xFF]
    .ok ((header ++ data.take (20 - header.length)) ::
      contPackets (data.drop (20 - header.length)))
  else if dataLen < 65536 then
    let header := [0x40, (dataLen >>> 8) &&& 0xFF, dataLen &&& 0xFF]
    .ok ((header ++ data.take (20 - header.length)) ::
      contPackets (data.drop (20 - header.length)))
  else
    .error "Data length too long (max 65535 bytes)"

/-! ## WiFi association strategy (ble_commands.py, connect_to_wifi) -/

/-- Outcome of one call to _connect_to_configured_wifi (RequestConnect, no
password).  The call either returns, or raises BleConnectionError; the
passwordAuth flag records whether the error message contains
provisioning_state=7 (the password-authentication failure the fallback at
lines 1096-1106 looks for).  An internal notification timeout is swallowed
by the call itself (lines 1178-1182), so it never raises TimeoutError. -/
inductive CKOutcome where
  | ok
  | err (passwordAuth : Bool)
deriving Repr, DecidableEq

/-- Outcome of scan_wifi_networks as observed by connect_to_wifi: a network
list of (ssid, configured-flag) pairs, a TimeoutError, or a
BleConnectionError (invalid or rejected scan start, scan aborted). -/
inductive ScanOutcome where
  | networks (l : List (String × Bool))
  | timeoutErr
  | bleErr
deriving Repr, DecidableEq

/-- Outcome of one call to _connect_to_new_wifi (RequestConnectNew). -/
inductive CNOutcome where
  | ok
  | err
deriving Repr, DecidableEq

/-- The observable sub-requests connect_to_wifi issues over BLE. -/
inductive WifiEvent where
  | requestConnect
  | scanNetworks
  | requestConnectNew
deriving Repr, DecidableEq, BEq

/-- Result of connect_to_wifi: success, or the distinct raise sites
(ssid missing from scan results at lines 1072-1078, a propagated scan error,
a propagated non-password RequestConnect error at line 1106, or a
RequestConnectNew failure). -/
inductive WifiResult where
  | ok
  | ssidNotFound
  | scanError
  | connectError
  | connectNewError
deriving Repr, DecidableEq

/-- Environment for connect_to_wifi: the outcome of the n-th RequestConnect
attempt, of the scan, and of RequestConnectNew. -/
structure WifiEnv where
  connectKnown : Nat → CKOutcome
  scan : ScanOutcome
  connectNew : CNOutcome

/-- The scan-and-choose phase of connect_to_wifi (ble_commands.py lines
1057-1111), entered when there are no COHN credentials or when the initial
RequestConnect attempt failed.  pre holds the events already issued and
ckIdx indexes the next RequestConnect attempt.  Only a scan TimeoutError is
tolerated (line 1061); a scan BleConnectionError propagates.  If the target
ssid is flagged configured, RequestConnect is tried and only a
provisioning_state=7 failure falls back to RequestConnectNew. -/
def connectToWifiScan (env : WifiEnv) (ssid : String) (pre : List WifiEvent)
    (ckIdx : Nat) : List WifiEvent × WifiResult :=
  match env.scan with
  | .timeoutErr =>
    match env.connectNew with
    | .ok => (pre ++ [.scanNetworks, .requestConnectNew], .ok)
    | .err => (pre ++ [.scanNetworks, .requestConnectNew], .connectNewError)
  | .bleErr => (pre ++ [.scanNetworks], .scanError)
  | .networks l =>
    match l.find? (fun nw => nw.1 == ssid) with
    | none => (pre ++ [.scanNetworks], .ssidNotFound)
    | some nw =>
      if nw.2 then
        match env.connectKnown ckIdx with
        | .ok => (pre ++ [.scanNetworks, .requestConnect], .ok)
        | .err true =>
          match env.connectNew with
          | .ok => (pre ++ [.scanNetworks, .requestConnect, .requestConnectNew], .ok)
          | .err => (pre ++ [.scanNetworks, .requestConnect, .requestConnectNew],
              .connectNewError)
        | .err false => (pre ++ [.scanNetworks, .requestConnect], .connectError)
      else
        match env.connectNew with
        | .ok => (pre ++ [.scanNetworks, .requestConnectNew], .ok)
        | .err => (pre ++ [.scanNetworks, .requestConnectNew], .connectNewError)

/-- connect_to_wifi (ble_commands.py lines 1004-1111).  With COHN credentials
the password-less RequestConnect is tried first (lines 1040-1055); any
BleConnectionError or TimeoutError from it falls through to the scan phase.
Returns the ordered list of issued sub-requests and the result. -/
def connectToWifi (env : WifiEnv) (ssid : String) (hasCohnCredentials : Bool) :
    List WifiEvent × WifiResult :=
  if hasCohnCredentials then
    match env.connectKnown 0 with
    | .ok => ([.requestConnect], .ok)
    | .err _ => connectToWifiScan env ssid [.requestConnect] 1
  else
    connectToWifiScan env ssid [] 0

/-- Whether the scan succeeded and lists the target ssid as configured
(SCAN_FLAG_CONFIGURED) - the condition under which connect_to_wifi attempts
the password-less RequestConnect again after the initial attempt failed. -/
def scanFoundConfigured (env : WifiEnv) (ssid : String) : Bool :=
  match env.scan with
  | .networks l =>
    match l.find? (fun nw => nw.1 == ssid) with
    | some nw => nw.2
    | none => false
  | _ => false

/-! ## COHN provisioning poll loop (ble_commands.py, _wait_for_cohn_provisioned) -/

/-- EnumCOHNStatus of the COHN status query (external proto): the provisioning
certificate status. -/
inductive COHNStatusE where
  | unprovisioned
  | provisioned
deriving Repr, DecidableEq

/-- EnumCOHNNetworkState of the COHN status query (external proto), collapsed
to the constructors the source compares against plus a catch-all. -/
inductive COHNNetState where
  | idle
  | connecting
  | connected
  | other
deriving Repr, DecidableEq

/-- The fields of the NotifyCOHNStatus response used by the poll loop and by
the credential refresh. -/
structure CohnStatusMsg where
  status : COHNStatusE
  state : COHNNetState
  ipaddress : String
  username : String
  password : String
deriving Repr, DecidableEq

/-- has_ip as computed at ble_commands.py line 682 and client.py lines 288 and
303: bool(ipaddress) and bool(ipaddress.strip()). -/
def hasIpStr (ip : String) : Bool := !ip.isEmpty && !ip.trim.isEmpty

/-- The completion condition of the poll loop (ble_commands.py lines 692-697):
provisioned, and either connected or connecting-with-an-IP. -/
def cohnReady (st : CohnStatusMsg) : Bool :=
  decide (st.status = .provisioned) &&
    (decide (st.state = .connected) ||
      (decide (st.state = .connecting) && hasIpStr st.ipaddress))

/-- The single raise site of the poll loop. -/
inductive CohnPollError where
  | provisionTimeout
deriving Repr, DecidableEq

/-- One iteration per poll: at iteration n (elapsed time n * interval,
queries instantaneous, sleeps exact) the loop first raises TimeoutError if
elapsed > timeout (ble_commands.py line 653, strict comparison), then
queries the status and returns if cohnReady holds (line 697), else sleeps
for interval and repeats.  fuel bounds the recursion; none means the fuel
ran out before the loop decided. -/
def cohnPollAux (statuses : Nat → CohnStatusMsg) (timeout interval : ℚ) :
    Nat → Nat → Option (Except CohnPollError Unit)
  | 0, _ => none
  | fuel + 1, n =>
    if timeout < (n : ℚ) * interval then some (.error .provisionTimeout)
    else if cohnReady (statuses n) then some (.ok ())
    else cohnPollAux statuses timeout interval fuel (n + 1)

/-- The loop _wait_for_cohn_provisioned (ble_commands.py lines 635-705) run on a
synthetic status sequence, with enough fuel that the loop always decides. -/
def waitForCohnProvisioned (statuses : Nat → CohnStatusMsg) (timeout interval : ℚ) :
    Option (Except CohnPollError Unit) :=
  cohnPollAux statuses timeout interval (Nat.ceil (timeout / interval) + 2) 0

/-! ## HTTPS readiness probe (http_manager.py, _wait_for_https_ready) -/

/-- Outcome of one probe attempt (one GET of /gopro/version): an HTTP status
code, or an exception classified by the retryable types/keywords of
http_manager.py lines 226-248, with timeoutExc marking asyncio.TimeoutError
or TimeoutError (line 253). -/
inductive ProbeOutcome where
  | status (code : Nat)
  | exc (retryable timeoutExc : Bool)
deriving Repr, DecidableEq

/-- Result of the probe: ready on some attempt, the UnreachableHost fast-fail
(http_manager.py lines 266-275), the startup-timeout raise (lines 287-291 and
297), or the non-retryable raise (line 295). -/
inductive ProbeResult where
  | ready (attempt : Nat)
  | unreachable (attempt : Nat)
  | startupTimeout
  | fatal (attempt : Nat)
deriving Repr, DecidableEq

/-- The body of the for-loop of _wait_for_https_ready (http_manager.py lines
204-297), attempts numbered 1..maxRetries, with fuel = maxRetries + 1 -
attempt so that running out of fuel is exactly falling off the loop (line
297).  consec tracks consecutive_timeouts: reset on a non-200 status and on
retryable non-timeout exceptions, incremented on timeouts; when it reaches
warnT a warning is emitted and when it also reaches fatalT the probe raises
UnreachableHost instead of continuing to the full retry budget. -/
def probeAux (outcomes : Nat → ProbeOutcome) (maxRetries warnT fatalT : Nat) :
    Nat → Nat → Nat → ProbeResult
  | 0, _, _ => .startupTimeout
  | fuel + 1, attempt, consec =>
    match outcomes attempt with
    | .status code =>
      if code = 200 then .ready attempt
      else probeAux outcomes maxRetries warnT fatalT fuel (attempt + 1) 0
    | .exc retryable timeoutExc =>
      if retryable then
        if attempt < maxRetries then
          let consec2 := if timeoutExc then consec + 1 else 0
          if warnT ≤ consec2 then
            if fatalT ≤ consec2 then .unreachable attempt
            else probeAux outcomes maxRetries warnT fatalT fuel (attempt + 1) consec2
          else probeAux outcomes maxRetries warnT fatalT fuel (attempt + 1) consec2
        else .startupTimeout
      else .fatal attempt

/-- The probe _wait_for_https_ready run on a synthetic outcome sequence: attempts start
at 1 with consecutive_timeouts = 0. -/
def waitForHttpsReady (outcomes : Nat → ProbeOutcome)
    (maxRetries warnT fatalT : Nat) : ProbeResult :=
  probeAux outcomes maxRetries warnT fatalT maxRetries 1 0

/-! ## Offline-mode gating (client.py) -/

/-- The GoProClient methods that delegate to the HTTP command layer
(client.py lines 546-1140), i.e. the operations that issue an HTTP request
when executed. -/
inductive ClientOp where
  | setPreviewStream
  | tagHilight
  | getCameraState
  | getCameraInfo
  | setKeepAlive
  | getDateTime
  | getSetting
  | setSetting
  | getPresetStatus
  | loadPreset
  | loadPresetGroup
  | setDigitalZoom
  | reboot
  | getMediaList
  | downloadFile
  | deleteFile
  | deleteAllMedia
  | getMediaMetadata
  | getLastCapturedMedia
  | setTurboMode
  | webcamStart
  | webcamStop
  | webcamStatus
  | webcamPreview
  | webcamExit
  | getWebcamVersion
deriving Repr, DecidableEq, Fintype

/-- What happens when the operation is invoked while the client is in OFFLINE
mode: _require_online_mode raises OfflineModeError before any network call,
or the HTTP request is issued unguarded. -/
inductive OfflineCallEffect where
  | offlineModeError
  | httpRequest
deriving Repr, DecidableEq

/-- Per-method offline behavior read off client.py: every HTTP-delegating
method calls _require_online_mode first, except tag_hilight (lines 698-700),
which calls http_commands.tag_hilight() with no mode check. -/
def offlineCallEffect : ClientOp → OfflineCallEffect
  | .setPreviewStream => .offlineModeError
  | .tagHilight => .httpRequest
  | .getCameraState => .offlineModeError
  | .getCameraInfo => .offlineModeError
  | .setKeepAlive => .offlineModeError
  | .getDateTime => .offlineModeError
  | .getSetting => .offlineModeError
  | .setSetting => .offlineModeError
  | .getPresetStatus => .offlineModeError
  | .loadPreset => .offlineModeError
  | .loadPresetGroup => .offlineModeError
  | .setDigitalZoom => .offlineModeError
  | .reboot => .offlineModeError
  | .getMediaList => .offlineModeError
  | .downloadFile => .offlineModeError
  | .deleteFile => .offlineModeError
  | .deleteAllMedia => .offlineModeError
  | .getMediaMetadata => .offlineModeError
  | .getLastCapturedMedia => .offlineModeError
  | .setTurboMode => .offlineModeError
  | .webcamStart => .offlineModeError
  | .webcamStop => .offlineModeError
  | .webcamStatus => .offlineModeError
  | .webcamPreview => .offlineModeError
  | .webcamExit => .offlineModeError
  | .getWebcamVersion => .offlineModeError

/-! ## Credential IP refresh (client.py, GoProClient.open step 3.2) -/

/-- The persisted COHN credential record. -/
structure CohnCredentials where
  ip_address : String
  username : String
  password : String
  certificate : String
deriving Repr, DecidableEq

/-- The for-attempt-in-range(5) IP poll of client.py lines 300-309: poll i is
the status returned by the i-th get_cohn_status call inside the loop; the
loop breaks at the first status with an IP, otherwise ends on the fifth
(index 4) with has_ip false. -/
def pollForIp (poll : Nat → CohnStatusMsg) : Nat → Nat → CohnStatusMsg × Bool
  | 0, i => (poll (i - 1), false)
  | r + 1, i =>
    let st := poll i
    if hasIpStr st.ipaddress then (st, true) else pollForIp poll r (i + 1)

/-- The refresh branch of GoProClient.open (client.py lines 280-335), given
the status of the initial get_cohn_status query and the statuses of the
follow-up polls.  Returns the credentials handed to the HTTP session and
whether an updated record was persisted: without an IP the old record is
kept (lines 312-325); with an IP a new record is saved taking username,
password and ip from the status and keeping the old certificate (lines
326-335). -/
def refreshCohnCredentials (old : CohnCredentials) (status0 : CohnStatusMsg)
    (poll : Nat → CohnStatusMsg) : CohnCredentials × Bool :=
  let hasIp0 := hasIpStr status0.ipaddress
  let r :=
    if status0.state = .connecting ∧ hasIp0 = false then pollForIp poll 5 0
    else (status0, hasIp0)
  if r.2 = false then (old, false)
  else ({ username := r.1.username, password := r.1.password,
          ip_address := r.1.ipaddress, certificate := old.certificate }, true)

/-- Environment refuting C3: prior credentials, initial RequestConnect fails,
the scan lists the target ssid as configured, the retried RequestConnect
succeeds. -/
def c3Env : WifiEnv :=
  ⟨fun k => if k = 0 then .err false else .ok, .networks [("HomeWifi", true)], .ok⟩

/-- Environment refuting C6: the scan fails with BleConnectionError (the
camera rejected the scan-start request). -/
def c6Env : WifiEnv := ⟨fun _ => .ok, .bleErr, .ok⟩

/-! ## Helper lemmas: bit arithmetic -/

theorem shiftLeft_lor_eq_add (a r k : Nat) (h : r < 2 ^ k) :
    (a <<< k) ||| r = a * 2 ^ k + r := by
  apply Nat.eq_of_testBit_eq
  intro i
  rw [Nat.testBit_lor, Nat.testBit_shiftLeft]
  rcases Nat.lt_or_ge i k with hik | hik
  · have h1 : ¬ (i ≥ k) := by omega
    simp only [ge_iff_le, h1, decide_False, Bool.false_and, Bool.false_or]
    obtain ⟨j, hj⟩ : ∃ j, k = j + 1 + i := ⟨k - 1 - i, by omega⟩
    have h2 : a * 2 ^ k = 2 ^ i * (2 * (a * 2 ^ j)) := by
      subst hj; ring
    have harith : (a * 2 ^ k + r) / 2 ^ i % 2 = r / 2 ^ i % 2 := by
      rw [h2, Nat.mul_add_div (Nat.pos_pow_of_pos i (by norm_num)), Nat.mul_add_mod]
    rw [Nat.testBit_to_div_mod, Nat.testBit_to_div_mod, harith]
  · have h1 : (i ≥ k) := hik
    simp only [ge_iff_le, h1, decide_True, Bool.true_and]
    have hr : r.testBit i = false :=
      Nat.testBit_lt_two_pow (lt_of_lt_of_le h (Nat.pow_le_pow_right (by norm_num) hik))
    rw [hr, Bool.or_false]
    have harith : (a * 2 ^ k + r) / 2 ^ i = a / 2 ^ (i - k) := by
      rw [show (2 : Nat) ^ i = 2 ^ k * 2 ^ (i - k) by rw [← pow_add]; congr 1; omega,
        ← Nat.div_div_eq_div_mul, Nat.mul_comm a (2 ^ k),
        Nat.mul_add_div (Nat.pos_pow_of_pos k (by norm_num)),
        Nat.div_eq_of_lt h, Nat.add_zero]
    rw [Nat.testBit_to_div_mod, Nat.testBit_to_div_mod, harith]

theorem and_31_eq_mod (x : Nat) : x &&& 0x1F = x % 32 := by
  have h := Nat.and_pow_two_sub_one_eq_mod x 5
  norm_num at h
  exact h

theorem and_255_eq_mod (x : Nat) : x &&& 0xFF = x % 256 := by
  have h := Nat.and_pow_two_sub_one_eq_mod x 8
  norm_num at h
  exact h

theorem lor_32_eq_add (q : Nat) (hq : q < 32) : 0x20 ||| q = 32 + q := by
  have h := shiftLeft_lor_eq_add 1 q 5 (by norm_num; omega)
  norm_num at h
  rw [show (0x20 : Nat) = 1 <<< 5 by rfl, h]
  omega

theorem ext13_byte0_facts (q : Nat) (hq : q < 32) :
    ((32 + q) &&& 0x80 = 0) ∧ (((32 + q) &&& 0x60) >>> 5 = 1) ∧ ((32 + q) &&& 0x1F = q) := by
  interval_cases q <;> exact ⟨rfl, rfl, rfl⟩

/-! ## Helper lemmas: single feed steps -/

theorem onNotification_cont (b : Nat) (payload : List Nat) (acc : List Nat) (rem : Int)
    (hb : b &&& 0x80 ≠ 0) :
    onNotification (b :: payload) ⟨acc, rem, []⟩
      = mkResult (acc ++ payload) (rem - payload.length) := by
  unfold onNotification
  simp [hb]

theorem contPackets_ne_nil (x : Nat) (xs : List Nat) : contPackets (x :: xs) ≠ [] := by
  rw [contPackets]
  simp

theorem feedTrace_cont (m : Nat) : ∀ (rest acc : List Nat), rest.length = m → rest ≠ [] →
    feedTrace (contPackets rest) ⟨acc, (rest.length : Int), []⟩ =
      (List.replicate ((contPackets rest).length - 1) none ++ [some (acc ++ rest)],
        initState) := by
  induction m using Nat.strong_induction_on with
  | _ m ih =>
    intro rest acc hlen hne
    match rest with
    | [] => exact absurd rfl hne
    | x :: xs =>
      rw [contPackets, feedTrace]
      rw [onNotification_cont 0x80 ((x :: xs).take 19) acc _ (by decide)]
      by_cases hc : (x :: xs).length ≤ 19
      · have htake : (x :: xs).take 19 = x :: xs := List.take_of_length_le hc
        have hdrop : (x :: xs).drop 19 = [] := List.drop_eq_nil_of_le hc
        rw [htake, hdrop]
        have hrem : ((x :: xs).length : Int) - (x :: xs).length = 0 := by omega
        rw [hrem]
        rw [show mkResult (acc ++ (x :: xs)) 0 = (some (acc ++ (x :: xs)), initState)
          from rfl]
        simp [feedTrace, contPackets]
      · have hlt : 19 < (x :: xs).length := by omega
        have htakelen : ((x :: xs).take 19).length = 19 := by
          rw [List.length_take]; omega
        have hdroplen : ((x :: xs).drop 19).length = (x :: xs).length - 19 :=
          List.length_drop 19 (x :: xs)
        have hrem : ((x :: xs).length : Int) - ((x :: xs).take 19).length
            = (((x :: xs).drop 19).length : Int) := by
          rw [htakelen, hdroplen]; omega
        rw [hrem]
        have hdroppos : 0 < ((x :: xs).drop 19).length := by rw [hdroplen]; omega
        have hdropne : (x :: xs).drop 19 ≠ [] := List.length_pos.mp hdroppos
        have hpos : ¬ ((((x :: xs).drop 19).length : Int) < 0) := by omega
        have hzero : ¬ ((((x :: xs).drop 19).length : Int) = 0) := by
          intro h0
          omega
        rw [show mkResult (acc ++ (x :: xs).take 19) (((x :: xs).drop 19).length : Int)
            = (none, ⟨acc ++ (x :: xs).take 19, (((x :: xs).drop 19).length : Int), []⟩) by
          unfold mkResult
          rw [if_neg hpos, if_neg hzero]]
        have hih := ih ((x :: xs).drop 19).length (by omega) ((x :: xs).drop 19)
          (acc ++ (x :: xs).take 19) rfl hdropne
        rw [hih]
        have happend : acc ++ (x :: xs).take 19 ++ (x :: xs).drop 19 = acc ++ (x :: xs) := by
          rw [List.append_assoc, List.take_append_drop]
        rw [happend]
        have hclen : 1 ≤ (contPackets ((x :: xs).drop 19)).length := by
          match hdp : (x :: xs).drop 19, hdropne with
          | y :: ys, _ => rw [contPackets]; simp
        simp only [List.length_cons]
        rw [show (contPackets ((x :: xs).drop 19)).length + 1 - 1
            = (contPackets ((x :: xs).drop 19)).length - 1 + 1 by omega]
        rw [List.replicate_succ]
        simp

theorem onNotification_ext13_first (data : List Nat) (h : data.length < 8192) :
    onNotification ([0x20 ||| ((data.length >>> 8) &&& 0x1F), data.length &&& 0xFF]
        ++ data.take 18) initState
      = mkResult (data.take 18) ((data.length : Int) - (data.take 18).length) := by
  have hq : data.length >>> 8 = data.length / 256 := by
    rw [Nat.shiftRight_eq_div_pow]
  have hq32 : data.length / 256 < 32 := by omega
  have hb0 : 0x20 ||| ((data.length >>> 8) &&& 0x1F) = 32 + data.length / 256 := by
    rw [hq, and_31_eq_mod, Nat.mod_eq_of_lt hq32, lor_32_eq_add _ hq32]
  obtain ⟨f1, f2, f3⟩ := ext13_byte0_facts (data.length / 256) hq32
  have hmod : data.length % 256 < 2 ^ 8 := by
    rw [show (2 : Nat) ^ 8 = 256 from rfl]
    omega
  have hval : (((32 + data.length / 256) &&& 0x1F) <<< 8) ||| (data.length &&& 0xFF)
      = data.length := by
    rw [f3, and_255_eq_mod, shiftLeft_lor_eq_add _ _ 8 hmod,
      show (2 : Nat) ^ 8 = 256 from rfl]
    omega
  unfold onNotification
  simp only [List.cons_append, List.nil_append, initState, hb0]
  rw [if_neg (by rw [f1]; simp), if_neg (by rw [f2]; simp), if_pos f2]
  rw [hval]

theorem onNotification_ext16_first (data : List Nat) (h : data.length < 65536) :
    onNotification ([0x40, (data.length >>> 8) &&& 0xFF, data.length &&& 0xFF]
        ++ data.take 17) initState
      = mkResult (data.take 17) ((data.length : Int) - (data.take 17).length) := by
  have hq : data.length >>> 8 = data.length / 256 := by
    rw [Nat.shiftRight_eq_div_pow]
  have hq256 : data.length / 256 < 256 := by omega
  have hb1 : (data.length >>> 8) &&& 0xFF = data.length / 256 := by
    rw [hq, and_255_eq_mod, Nat.mod_eq_of_lt hq256]
  have hmod : data.length % 256 < 2 ^ 8 := by
    rw [show (2 : Nat) ^ 8 = 256 from rfl]
    omega
  have hval : ((data.length / 256) <<< 8) ||| (data.length &&& 0xFF) = data.length := by
    rw [and_255_eq_mod, shiftLeft_lor_eq_add _ _ 8 hmod,
      show (2 : Nat) ^ 8 = 256 from rfl]
    omega
  unfold onNotification
  simp only [List.cons_append, List.nil_append, initState, hb1]
  rw [if_neg (by decide), if_neg (by decide), if_neg (by decide), if_pos (by decide)]
  rw [hval]

theorem feedTrace_fragment (data : List Nat) (pkts : List (List Nat))
    (h : data.length ≤ 65535) (hf : fragment data = .ok pkts) :
    feedTrace pkts initState
      = (List.replicate (pkts.length - 1) none ++ [some data], initState) := by
  by_cases h13 : data.length < 8192
  · have hp : pkts = ([0x20 ||| ((data.length >>> 8) &&& 0x1F), data.length &&& 0xFF]
        ++ data.take 18) :: contPackets (data.drop 18) := by
      unfold fragment at hf
      rw [if_pos h13] at hf
      simpa using hf.symm
    subst hp
    rw [feedTrace]
    rw [onNotification_ext13_first data h13]
    by_cases hc : data.length ≤ 18
    · have htake : data.take 18 = data := List.take_of_length_le hc
      have hdrop : data.drop 18 = [] := List.drop_eq_nil_of_le hc
      rw [htake, hdrop]
      rw [show ((data.length : Int) - (data.length : Int)) = 0 by omega]
      rw [show mkResult data 0 = (some data, initState) from rfl]
      simp [feedTrace, contPackets]
    · have hlt : 18 < data.length := by omega
      have htakelen : (data.take 18).length = 18 := by
        rw [List.length_take]; omega
      have hdroplen : (data.drop 18).length = data.length - 18 := List.length_drop 18 data
      have hdroppos : 0 < (data.drop 18).length := by rw [hdroplen]; omega
      have hdropne : data.drop 18 ≠ [] := List.length_pos.mp hdroppos
      have hrem : (data.length : Int) - (data.take 18).length
          = ((data.drop 18).length : Int) := by
        rw [htakelen, hdroplen]; omega
      rw [hrem]
      rw [show mkResult (data.take 18) ((data.drop 18).length : Int)
          = (none, ⟨data.take 18, ((data.drop 18).length : Int), []⟩) by
        unfold mkResult
        rw [if_neg (by omega), if_neg (by intro h0; omega)]]
      have hih := feedTrace_cont (data.drop 18).length (data.drop 18) (data.take 18)
        rfl hdropne
      rw [hih, List.take_append_drop]
      have hclen : 1 ≤ (contPackets (data.drop 18)).length := by
        match hdp : data.drop 18, hdropne with
        | y :: ys, _ => rw [contPackets]; simp
      simp only [List.length_cons]
      rw [show (contPackets (data.drop 18)).length + 1 - 1
          = (contPackets (data.drop 18)).length - 1 + 1 by omega]
      rw [List.replicate_succ]
      simp
  · have h16 : data.length < 65536 := by omega
    have hp : pkts = ([0x40, (data.length >>> 8) &&& 0xFF, data.length &&& 0xFF]
        ++ data.take 17) :: contPackets (data.drop 17) := by
      unfold fragment at hf
      rw [if_neg h13, if_pos h16] at hf
      simpa using hf.symm
    subst hp
    rw [feedTrace]
    rw [onNotification_ext16_first data h16]
    have hlt : 17 < data.length := by omega
    have htakelen : (data.take 17).length = 17 := by
      rw [List.length_take]; omega
    have hdroplen : (data.drop 17).length = data.length - 17 := List.length_drop 17 data
    have hdroppos : 0 < (data.drop 17).length := by rw [hdroplen]; omega
    have hdropne : data.drop 17 ≠ [] := List.length_pos.mp hdroppos
    have hrem : (data.length : Int) - (data.take 17).length
        = ((data.drop 17).length : Int) := by
      rw [htakelen, hdroplen]; omega
    rw [hrem]
    rw [show mkResult (data.take 17) ((data.drop 17).length : Int)
        = (none, ⟨data.take 17, ((data.drop 17).length : Int), []⟩) by
      unfold mkResult
      rw [if_neg (by omega), if_neg (by intro h0; omega)]]
    have hih := feedTrace_cont (data.drop 17).length (data.drop 17) (data.take 17)
      rfl hdropne
    rw [hih, List.take_append_drop]
    have hclen : 1 ≤ (contPackets (data.drop 17)).length := by
      match hdp : data.drop 17, hdropne with
      | y :: ys, _ => rw [contPackets]; simp
    simp only [List.length_cons]
    rw [show (contPackets (data.drop 17)).length + 1 - 1
        = (contPackets (data.drop 17)).length - 1 + 1 by omega]
    rw [List.replicate_succ]
    simp

theorem contPackets_len_le (m : Nat) : ∀ d : List Nat, d.length = m →
    ∀ p ∈ contPackets d, p.length ≤ 20 := by
  induction m using Nat.strong_induction_on with
  | _ m ih =>
    intro d hlen p hp
    match d with
    | [] => simp [contPackets] at hp
    | x :: xs =>
      rw [contPackets] at hp
      rcases List.mem_cons.mp hp with h1 | h2
      · subst h1
        simp [List.length_take]
      · have hlt : ((x :: xs).drop 19).length < m := by
          rw [List.length_drop]
          simp only [List.length_cons] at hlen ⊢
          omega
        exact ih ((x :: xs).drop 19).length hlt ((x :: xs).drop 19) rfl p h2

theorem onNotification_headerBuffer (pre post : List Nat) (a : List Nat) (r : Int)
    (hpost : post ≠ []) :
    onNotification post ⟨a, r, pre⟩ = onNotification (pre ++ post) ⟨a, r, []⟩ := by
  match post, hpost with
  | p :: ps, _ =>
    match pre with
    | [] => rfl
    | q :: qs => rfl

theorem feedTrace_stash_glue (pre post : List Nat) (ps : List (List Nat))
    (a : List Nat) (r : Int) (hpost : post ≠ []) :
    feedTrace (post :: ps) ⟨a, r, pre⟩ = feedTrace ((pre ++ post) :: ps) ⟨a, r, []⟩ := by
  rw [feedTrace, feedTrace, onNotification_headerBuffer pre post a r hpost]

theorem onNotification_stash13_one (b0 : Nat) (h80 : b0 &&& 0x80 = 0)
    (hht : (b0 &&& 0x60) >>> 5 = 1) (a : List Nat) (r : Int) :
    onNotification [b0] ⟨a, r, []⟩ = (none, ⟨[], r, [b0]⟩) := by
  unfold onNotification
  simp only [List.nil_append]
  rw [if_neg (by rw [h80]; simp), if_neg (by rw [hht]; simp), if_pos hht]

theorem onNotification_stash16_one (a : List Nat) (r : Int) :
    onNotification [0x40] ⟨a, r, []⟩ = (none, ⟨[], r, [0x40]⟩) := by
  unfold onNotification
  simp only [List.nil_append]
  rw [if_neg (by decide), if_neg (by decide), if_neg (by decide), if_pos (by decide)]

theorem onNotification_stash16_two (b1 : Nat) (a : List Nat) (r : Int) :
    onNotification [0x40, b1] ⟨a, r, []⟩ = (none, ⟨[], r, [0x40, b1]⟩) := by
  unfold onNotification
  simp only [List.nil_append]
  rw [if_neg (by decide), if_neg (by decide), if_neg (by decide), if_pos (by decide)]

/-- C1: for every byte sequence of length 0 through 65535, Encode (mtu 20)
followed by Feed over every resulting packet in order reconstructs exactly
the original bytes; every packet except the last yields no message, the last
yields the complete message, and the reassembly state ends idle. -/
theorem c1_encode_feed_roundtrip (data : List Nat) (h : data.length ≤ 65535) :
    ∃ pkts, fragment data = .ok pkts ∧ 0 < pkts.length ∧
      feedTrace pkts initState
        = (List.replicate (pkts.length - 1) none ++ [some data], initState) := by
  by_cases h13 : data.length < 8192
  · have hf : fragment data = .ok (([0x20 ||| ((data.length >>> 8) &&& 0x1F),
        data.length &&& 0xFF] ++ data.take 18) :: contPackets (data.drop 18)) := by
      unfold fragment
      rw [if_pos h13]
      rfl
    exact ⟨_, hf, by simp, feedTrace_fragment data _ h hf⟩
  · have h16 : data.length < 65536 := by omega
    have hf : fragment data = .ok (([0x40, (data.length >>> 8) &&& 0xFF,
        data.length &&& 0xFF] ++ data.take 17) :: contPackets (data.drop 17)) := by
      unfold fragment
      rw [if_neg h13, if_pos h16]
      rfl
    exact ⟨_, hf, by simp, feedTrace_fragment data _ h hf⟩

/-- Witness for C1 at a concrete 25-byte message (one header packet plus one
continuation packet). -/
theorem c1_encode_feed_roundtrip_witness :
    (List.range 25).length ≤ 65535 ∧
    ∃ pkts, fragment (List.range 25) = .ok pkts ∧ 0 < pkts.length ∧
      feedTrace pkts initState
        = (List.replicate (pkts.length - 1) none ++ [some (List.range 25)], initState) :=
  ⟨by decide, c1_encode_feed_roundtrip (List.range 25) (by decide)⟩

/-- C10: from the idle reassembly state, a one-byte continuation packet 0x80
immediately emits a zero-length message (queued as a completed response) and
leaves the state idle, rather than being dropped or treated as an error. -/
theorem c10_stray_continuation_empty_message :
    onNotification [0x80] initState = (some [], initState) := by decide

/-- C9: every packet produced by Encode is at most 20 bytes (the mtu); the
first packet carries the 2-byte extended 13-bit header for payloads shorter
than 8192 bytes and the 3-byte extended 16-bit header for payloads of 8192
through 65535 bytes; 65536 bytes or more is an error. -/
theorem c9_fragment_bound (data : List Nat) :
    (data.length < 8192 →
      ∃ ps, fragment data = .ok (([0x20 ||| ((data.length >>> 8) &&& 0x1F),
          data.length &&& 0xFF] ++ data.take 18) :: ps) ∧
        ∀ p ∈ ([0x20 ||| ((data.length >>> 8) &&& 0x1F),
          data.length &&& 0xFF] ++ data.take 18) :: ps, p.length ≤ 20) ∧
    (8192 ≤ data.length → data.length < 65536 →
      ∃ ps, fragment data = .ok (([0x40, (data.length >>> 8) &&& 0xFF,
          data.length &&& 0xFF] ++ data.take 17) :: ps) ∧
        ∀ p ∈ ([0x40, (data.length >>> 8) &&& 0xFF,
          data.length &&& 0xFF] ++ data.take 17) :: ps, p.length ≤ 20) ∧
    (65536 ≤ data.length →
      fragment data = .error "Data length too long (max 65535 bytes)") := by
  refine ⟨fun h13 => ⟨contPackets (data.drop 18), ?_, ?_⟩,
    fun h8 h16 => ⟨contPackets (data.drop 17), ?_, ?_⟩, fun hbig => ?_⟩
  · unfold fragment
    rw [if_pos h13]
    rfl
  · intro p hp
    rcases List.mem_cons.mp hp with h1 | h2
    · subst h1
      simp [List.length_take]
    · exact contPackets_len_le (data.drop 18).length (data.drop 18) rfl p h2
  · unfold fragment
    rw [if_neg (by omega), if_pos h16]
    rfl
  · intro p hp
    rcases List.mem_cons.mp hp with h1 | h2
    · subst h1
      simp [List.length_take]
    · exact contPackets_len_le (data.drop 17).length (data.drop 17) rfl p h2
  · unfold fragment
    rw [if_neg (by omega), if_neg (by omega)]

/-- Witness for C9 exercising all three header-class branches at concrete
lengths 100, 9000 and 70000. -/
theorem c9_fragment_bound_witness :
    ((List.replicate 100 7).length < 8192 ∧
      ∃ ps, fragment (List.replicate 100 7)
          = .ok (([0x20 ||| (((List.replicate 100 7).length >>> 8) &&& 0x1F),
            (List.replicate 100 7).length &&& 0xFF] ++ (List.replicate 100 7).take 18) :: ps) ∧
        ∀ p ∈ ([0x20 ||| (((List.replicate 100 7).length >>> 8) &&& 0x1F),
            (List.replicate 100 7).length &&& 0xFF] ++ (List.replicate 100 7).take 18) :: ps,
          p.length ≤ 20) ∧
    (8192 ≤ (List.replicate 9000 7).length ∧ (List.replicate 9000 7).length < 65536 ∧
      ∃ ps, fragment (List.replicate 9000 7)
          = .ok (([0x40, ((List.replicate 9000 7).length >>> 8) &&& 0xFF,
            (List.replicate 9000 7).length &&& 0xFF] ++ (List.replicate 9000 7).take 17) :: ps) ∧
        ∀ p ∈ ([0x40, ((List.replicate 9000 7).length >>> 8) &&& 0xFF,
            (List.replicate 9000 7).length &&& 0xFF] ++ (List.replicate 9000 7).take 17) :: ps,
          p.length ≤ 20) ∧
    (65536 ≤ (List.replicate 70000 7).length ∧
      fragment (List.replicate 70000 7) = .error "Data length too long (max 65535 bytes)") :=
  ⟨⟨by rw [List.length_replicate]; norm_num,
      (c9_fragment_bound (List.replicate 100 7)).1 (by rw [List.length_replicate]; norm_num)⟩,
    ⟨by rw [List.length_replicate]; norm_num, by rw [List.length_replicate]; norm_num,
      (c9_fragment_bound (List.replicate 9000 7)).2.1
        (by rw [List.length_replicate]; norm_num) (by rw [List.length_replicate]; norm_num)⟩,
    ⟨by rw [List.length_replicate]; norm_num,
      (c9_fragment_bound (List.replicate 70000 7)).2.2
        (by rw [List.length_replicate]; norm_num)⟩⟩

/-- C2 counterexample: for the one-byte message [0x41] the fragmenter yields
the single packet [0x20, 0x01, 0x41]; feeding that packet one byte at a time
yields no message on any of the three feeds, even after all bytes have
arrived (the third byte, 0x41, is misparsed as the start of a new message
and stashed as an incomplete extended 16-bit header). -/
theorem c2_byte_by_byte_counterexample :
    fragment [0x41] = .ok [[0x20, 0x01, 0x41]] ∧
    (feedTrace [[0x20], [0x01], [0x41]] initState).1 = [none, none, none] := by
  refine ⟨?_, by decide⟩
  unfold fragment
  rw [if_pos (by norm_num)]
  show Except.ok (([0x20, 0x01, 0x41] : List Nat) :: contPackets []) = _
  rw [contPackets]

/-- C2 amended: feeding the first packet with its header maximally fragmented
(each header byte but the last as its own notification, the last header byte
arriving together with the whole packet payload) followed by the remaining
packets yields no message on every feed but the last, which yields the
complete original message. -/
theorem c2_partial_header_tolerance (data : List Nat) (h : data.length ≤ 65535) :
    ∃ p0 ps hdrLen,
      fragment data = .ok (p0 :: ps) ∧
      hdrLen = (if data.length < 8192 then 2 else 3) ∧
      feedTrace ((p0.take (hdrLen - 1)).map (fun b => [b])
          ++ (p0.drop (hdrLen - 1)) :: ps) initState
        = (List.replicate (hdrLen - 1 + ps.length) none ++ [some data], initState) := by
  by_cases h13 : data.length < 8192
  · have hf : fragment data = .ok (([0x20 ||| ((data.length >>> 8) &&& 0x1F),
        data.length &&& 0xFF] ++ data.take 18) :: contPackets (data.drop 18)) := by
      unfold fragment
      rw [if_pos h13]
      rfl
    refine ⟨_, _, 2, hf, by rw [if_pos h13], ?_⟩
    have hq32 : data.length / 256 < 32 := by omega
    have hb0 : 0x20 ||| ((data.length >>> 8) &&& 0x1F) = 32 + data.length / 256 := by
      rw [Nat.shiftRight_eq_div_pow, show (2 : Nat) ^ 8 = 256 from rfl, and_31_eq_mod,
        Nat.mod_eq_of_lt hq32, lor_32_eq_add _ hq32]
    obtain ⟨f1, f2, _⟩ := ext13_byte0_facts (data.length / 256) hq32
    rw [show (([0x20 ||| ((data.length >>> 8) &&& 0x1F), data.length &&& 0xFF]
          ++ data.take 18).take (2 - 1)).map (fun b => [b])
          ++ (([0x20 ||| ((data.length >>> 8) &&& 0x1F), data.length &&& 0xFF]
          ++ data.take 18).drop (2 - 1)) :: contPackets (data.drop 18)
        = [0x20 ||| ((data.length >>> 8) &&& 0x1F)]
          :: ((data.length &&& 0xFF) :: data.take 18) :: contPackets (data.drop 18)
      from rfl]
    rw [feedTrace]
    rw [show onNotification [0x20 ||| ((data.length >>> 8) &&& 0x1F)] initState
        = (none, ⟨[], 0, [0x20 ||| ((data.length >>> 8) &&& 0x1F)]⟩) by
      rw [show initState = (⟨[], 0, []⟩ : RState) from rfl]
      exact onNotification_stash13_one _ (by rw [hb0]; exact f1) (by rw [hb0]; exact f2) [] 0]
    rw [feedTrace_stash_glue [0x20 ||| ((data.length >>> 8) &&& 0x1F)]
      ((data.length &&& 0xFF) :: data.take 18) (contPackets (data.drop 18)) [] 0
      (by simp)]
    rw [show ([0x20 ||| ((data.length >>> 8) &&& 0x1F)]
          ++ (data.length &&& 0xFF) :: data.take 18)
        = [0x20 ||| ((data.length >>> 8) &&& 0x1F), data.length &&& 0xFF]
          ++ data.take 18 from rfl]
    rw [show (⟨[], 0, []⟩ : RState) = initState from rfl]
    rw [feedTrace_fragment data _ h hf]
    simp only [List.length_cons]
    rw [show 2 - 1 + (contPackets (data.drop 18)).length
        = (contPackets (data.drop 18)).length + 1 by omega, List.replicate_succ,
      Nat.add_sub_cancel]
    rfl
  · have h16 : data.length < 65536 := by omega
    have hf : fragment data = .ok (([0x40, (data.length >>> 8) &&& 0xFF,
        data.length &&& 0xFF] ++ data.take 17) :: contPackets (data.drop 17)) := by
      unfold fragment
      rw [if_neg h13, if_pos h16]
      rfl
    refine ⟨_, _, 3, hf, by rw [if_neg h13], ?_⟩
    rw [show (([0x40, (data.length >>> 8) &&& 0xFF, data.length &&& 0xFF]
          ++ data.take 17).take (3 - 1)).map (fun b => [b])
          ++ (([0x40, (data.length >>> 8) &&& 0xFF, data.length &&& 0xFF]
          ++ data.take 17).drop (3 - 1)) :: contPackets (data.drop 17)
        = [0x40] :: [(data.length >>> 8) &&& 0xFF]
          :: ((data.length &&& 0xFF) :: data.take 17) :: contPackets (data.drop 17)
      from rfl]
    rw [feedTrace]
    rw [show onNotification [0x40] initState = (none, ⟨[], 0, [0x40]⟩) from
      onNotification_stash16_one [] 0]
    rw [feedTrace]
    rw [show onNotification [(data.length >>> 8) &&& 0xFF] (⟨[], 0, [0x40]⟩ : RState)
        = (none, ⟨[], 0, [0x40, (data.length >>> 8) &&& 0xFF]⟩) by
      rw [onNotification_headerBuffer [0x40] [(data.length >>> 8) &&& 0xFF] [] 0 (by simp)]
      exact onNotification_stash16_two _ [] 0]
    rw [feedTrace_stash_glue [0x40, (data.length >>> 8) &&& 0xFF]
      ((data.length &&& 0xFF) :: data.take 17) (contPackets (data.drop 17)) [] 0
      (by simp)]
    rw [show ([0x40, (data.length >>> 8) &&& 0xFF]
          ++ (data.length &&& 0xFF) :: data.take 17)
        = [0x40, (data.length >>> 8) &&& 0xFF, data.length &&& 0xFF]
          ++ data.take 17 from rfl]
    rw [show (⟨[], 0, []⟩ : RState) = initState from rfl]
    rw [feedTrace_fragment data _ h hf]
    simp only [List.length_cons]
    rw [show 3 - 1 + (contPackets (data.drop 17)).length
        = (contPackets (data.drop 17)).length + 1 + 1 by omega, List.replicate_succ,
      List.replicate_succ, Nat.add_sub_cancel]
    rfl

/-- Witness for C2 amended at the concrete 25-byte message 0..24. -/
theorem c2_partial_header_tolerance_witness :
    (List.range 25).length ≤ 65535 ∧
    ∃ p0 ps hdrLen,
      fragment (List.range 25) = .ok (p0 :: ps) ∧
      hdrLen = (if (List.range 25).length < 8192 then 2 else 3) ∧
      feedTrace ((p0.take (hdrLen - 1)).map (fun b => [b])
          ++ (p0.drop (hdrLen - 1)) :: ps) initState
        = (List.replicate (hdrLen - 1 + ps.length) none ++ [some (List.range 25)],
            initState) :=
  ⟨by decide, c2_partial_header_tolerance (List.range 25) (by decide)⟩

/-- C3 counterexample: with prior COHN credentials and a failed initial
password-less RequestConnect, a scan that lists the target ssid as
configured makes connect_to_wifi attempt the password-less RequestConnect a
second time within the same call. -/
theorem c3_counterexample :
    c3Env.connectKnown 0 ≠ .ok ∧
    (connectToWifi c3Env "HomeWifi" true).1.count .requestConnect = 2 := by decide

/-- C3 amended: with prior credentials and a failed initial password-less
RequestConnect, connect_to_wifi runs the scan phase exactly once; the
password-less RequestConnect is attempted a second time exactly when the
scan succeeds and lists the target ssid as configured, and otherwise it is
never retried. -/
theorem c3_fallback_once (env : WifiEnv) (ssid : String)
    (h : env.connectKnown 0 ≠ .ok) :
    (connectToWifi env ssid true).1.count .scanNetworks = 1 ∧
    (connectToWifi env ssid true).1.count .requestConnect
      = (if scanFoundConfigured env ssid then 2 else 1) := by
  cases hck : env.connectKnown 0 with
  | ok => exact absurd hck h
  | err pa =>
    cases hscan : env.scan with
    | timeoutErr =>
      cases hcn : env.connectNew <;>
        simp [connectToWifi, connectToWifiScan, scanFoundConfigured, hck, hscan, hcn] <;>
        decide
    | bleErr =>
      simp [connectToWifi, connectToWifiScan, scanFoundConfigured, hck, hscan] <;> decide
    | networks l =>
      cases hfind : l.find? (fun nw => nw.1 == ssid) with
      | none =>
        simp [connectToWifi, connectToWifiScan, scanFoundConfigured, hck, hscan, hfind] <;>
          decide
      | some nw =>
        cases hcfg : nw.2 with
        | false =>
          cases hcn : env.connectNew <;>
            simp [connectToWifi, connectToWifiScan, scanFoundConfigured, hck, hscan,
              hfind, hcfg, hcn] <;>
            decide
        | true =>
          cases hck1 : env.connectKnown 1 with
          | ok =>
            simp [connectToWifi, connectToWifiScan, scanFoundConfigured, hck, hscan,
              hfind, hcfg, hck1] <;> decide
          | err pa2 =>
            cases pa2 <;> cases hcn : env.connectNew <;>
              simp [connectToWifi, connectToWifiScan, scanFoundConfigured, hck, hscan,
                hfind, hcfg, hck1, hcn] <;>
              decide

/-- Witness for C3 amended: ssid not listed as configured, RequestConnect is
not retried. -/
theorem c3_fallback_once_witness :
    (WifiEnv.mk (fun _ => .err false) .timeoutErr .ok).connectKnown 0 ≠ .ok ∧
    ((connectToWifi (WifiEnv.mk (fun _ => .err false) .timeoutErr .ok)
        "HomeWifi" true).1.count .scanNetworks = 1 ∧
      (connectToWifi (WifiEnv.mk (fun _ => .err false) .timeoutErr .ok)
          "HomeWifi" true).1.count .requestConnect
        = (if scanFoundConfigured (WifiEnv.mk (fun _ => .err false) .timeoutErr .ok)
            "HomeWifi" then 2 else 1)) :=
  ⟨by decide, c3_fallback_once (WifiEnv.mk (fun _ => .err false) .timeoutErr .ok)
    "HomeWifi" (by decide)⟩

/-- C6 counterexample: a scan failure that is not a TimeoutError propagates
out of connect_to_wifi as a scan error and RequestConnectNew is never
attempted, so the claim that any scan failure is tolerated is false. -/
theorem c6_counterexample :
    c6Env.scan = .bleErr ∧
    connectToWifi c6Env "HomeWifi" false = ([.scanNetworks], .scanError) := by decide

/-- C6 amended: only a scan TimeoutError is tolerated, by skipping directly
to the terminal RequestConnectNew step; a scan BleConnectionError propagates
to the caller and RequestConnectNew is not attempted. -/
theorem c6_scan_timeout_tolerated (env : WifiEnv) (ssid : String)
    (hasCreds : Bool) (h0 : hasCreds = true → env.connectKnown 0 ≠ .ok) :
    (env.scan = .timeoutErr →
      (connectToWifi env ssid hasCreds).1.count .requestConnectNew = 1 ∧
      (connectToWifi env ssid hasCreds).2 ≠ .scanError) ∧
    (env.scan = .bleErr →
      (connectToWifi env ssid hasCreds).2 = .scanError ∧
      (connectToWifi env ssid hasCreds).1.count .requestConnectNew = 0) := by
  cases hasCreds with
  | false =>
    constructor
    · intro hscan
      cases hcn : env.connectNew <;>
        simp [connectToWifi, connectToWifiScan, hscan, hcn] <;> decide
    · intro hscan
      simp [connectToWifi, connectToWifiScan, hscan] <;> decide
  | true =>
    cases hck : env.connectKnown 0 with
    | ok => exact absurd hck (h0 rfl)
    | err pa =>
      constructor
      · intro hscan
        cases hcn : env.connectNew <;>
          simp [connectToWifi, connectToWifiScan, hck, hscan, hcn] <;> decide
      · intro hscan
        simp [connectToWifi, connectToWifiScan, hck, hscan] <;> decide

/-- Witness for C6 amended at a concrete environment whose scan times out. -/
theorem c6_scan_timeout_tolerated_witness :
    ((WifiEnv.mk (fun _ => .ok) .timeoutErr .ok).scan = .timeoutErr →
      (connectToWifi (WifiEnv.mk (fun _ => .ok) .timeoutErr .ok)
          "HomeWifi" false).1.count .requestConnectNew = 1 ∧
      (connectToWifi (WifiEnv.mk (fun _ => .ok) .timeoutErr .ok)
          "HomeWifi" false).2 ≠ .scanError) ∧
    ((WifiEnv.mk (fun _ => .ok) .timeoutErr .ok).scan = .bleErr →
      (connectToWifi (WifiEnv.mk (fun _ => .ok) .timeoutErr .ok)
          "HomeWifi" false).2 = .scanError ∧
      (connectToWifi (WifiEnv.mk (fun _ => .ok) .timeoutErr .ok)
          "HomeWifi" false).1.count .requestConnectNew = 0) :=
  c6_scan_timeout_tolerated (WifiEnv.mk (fun _ => .ok) .timeoutErr .ok) "HomeWifi"
    false (by decide)

theorem cohnPollAux_ok_iff (statuses : Nat → CohnStatusMsg) (timeout interval : ℚ)
    (hi : 0 < interval) :
    ∀ (fuel n : Nat), timeout < ((n : ℚ) + (fuel : ℚ) - 1) * interval →
      (cohnPollAux statuses timeout interval fuel n = some (.ok ()) ↔
        ∃ m : Nat, n ≤ m ∧ (m : ℚ) * interval ≤ timeout ∧ cohnReady (statuses m) = true) := by
  intro fuel
  induction fuel with
  | zero =>
    intro n hbound
    rw [cohnPollAux]
    simp only [Nat.cast_zero, add_zero] at hbound
    constructor
    · intro hcontra
      exact Option.noConfusion hcontra
    · rintro ⟨m, hnm, hm, _⟩
      have h1 : ((n : ℚ) - 1) * interval < (n : ℚ) * interval := by
        apply mul_lt_mul_of_pos_right _ hi
        linarith
      have h2 : (n : ℚ) * interval ≤ (m : ℚ) * interval := by
        apply mul_le_mul_of_nonneg_right _ (le_of_lt hi)
        exact_mod_cast hnm
      linarith
  | succ fuel ih =>
    intro n hbound
    rw [cohnPollAux]
    by_cases hg : timeout < (n : ℚ) * interval
    · rw [if_pos hg]
      constructor
      · intro hcontra
        simp at hcontra
      · rintro ⟨m, hnm, hm, _⟩
        have h2 : (n : ℚ) * interval ≤ (m : ℚ) * interval := by
          apply mul_le_mul_of_nonneg_right _ (le_of_lt hi)
          exact_mod_cast hnm
        linarith
    · rw [if_neg hg]
      by_cases hr : cohnReady (statuses n) = true
      · rw [if_pos hr]
        simp only [true_iff]
        exact ⟨n, le_refl n, by linarith, hr⟩
      · rw [if_neg hr]
        have ihh := ih (n + 1) (by push_cast; push_cast at hbound; linarith)
        rw [ihh]
        constructor
        · rintro ⟨m, hnm, hm, hrm⟩
          exact ⟨m, by omega, hm, hrm⟩
        · rintro ⟨m, hnm, hm, hrm⟩
          rcases Nat.eq_or_lt_of_le hnm with heq | hlt
          · subst heq
            exact absurd hrm hr
          · exact ⟨m, by omega, hm, hrm⟩

theorem cohnPollAux_total (statuses : Nat → CohnStatusMsg) (timeout interval : ℚ)
    (hi : 0 < interval) :
    ∀ (fuel n : Nat), 1 ≤ fuel → timeout < ((n : ℚ) + (fuel : ℚ) - 1) * interval →
      cohnPollAux statuses timeout interval fuel n = some (.ok ()) ∨
      cohnPollAux statuses timeout interval fuel n
        = some (.error .provisionTimeout) := by
  intro fuel
  induction fuel with
  | zero => intro n hf _; omega
  | succ fuel ih =>
    intro n _ hbound
    rw [cohnPollAux]
    by_cases hg : timeout < (n : ℚ) * interval
    · rw [if_pos hg]
      right
      rfl
    · rw [if_neg hg]
      by_cases hr : cohnReady (statuses n) = true
      · rw [if_pos hr]
        left
        rfl
      · rw [if_neg hr]
        push_neg at hg
        have hfuel : 1 ≤ fuel := by
          by_contra hf
          have hf0 : fuel = 0 := by omega
          subst hf0
          push_cast at hbound
          linarith
        exact ih (n + 1) hfuel (by push_cast; push_cast at hbound; linarith)

/-- C4: the COHN provisioning poll loop, run on any synthetic status
sequence with poll interval > 0 (queries modelled as instantaneous, so the
n-th poll happens at elapsed time n * interval), returns success exactly
when some poll within the timeout observes certStatus PROVISIONED together
with networkState CONNECTED, or CONNECTING with a non-empty IP; otherwise -
in particular for every sequence that never satisfies the condition - it
raises the provisioning-timeout error once the timeout has elapsed. -/
theorem c4_cohn_poll_characterization (statuses : Nat → CohnStatusMsg)
    (timeout interval : ℚ) (hi : 0 < interval) :
    (waitForCohnProvisioned statuses timeout interval = some (.ok ()) ↔
      ∃ n : Nat, (n : ℚ) * interval ≤ timeout ∧ cohnReady (statuses n) = true) ∧
    (waitForCohnProvisioned statuses timeout interval
        = some (.error .provisionTimeout) ↔
      ¬ ∃ n : Nat, (n : ℚ) * interval ≤ timeout ∧ cohnReady (statuses n) = true) := by
  have h1 : timeout / interval ≤ (Nat.ceil (timeout / interval) : ℚ) := Nat.le_ceil _
  have h2 : (timeout / interval) * interval = timeout :=
    div_mul_cancel₀ timeout (ne_of_gt hi)
  have h3 : timeout ≤ (Nat.ceil (timeout / interval) : ℚ) * interval := by
    have h4 := mul_le_mul_of_nonneg_right h1 (le_of_lt hi)
    rw [h2] at h4
    exact h4
  have hbound : timeout
      < (((0 : ℕ) : ℚ) + ((Nat.ceil (timeout / interval) + 2 : ℕ) : ℚ) - 1) * interval := by
    push_cast
    nlinarith
  have hok := cohnPollAux_ok_iff statuses timeout interval hi
    (Nat.ceil (timeout / interval) + 2) 0 hbound
  have htot := cohnPollAux_total statuses timeout interval hi
    (Nat.ceil (timeout / interval) + 2) 0 (by omega) hbound
  have hsimp : (∃ m : Nat, 0 ≤ m ∧ (m : ℚ) * interval ≤ timeout ∧
      cohnReady (statuses m) = true) ↔
      (∃ n : Nat, (n : ℚ) * interval ≤ timeout ∧ cohnReady (statuses n) = true) := by
    constructor
    · rintro ⟨m, _, hm, hr⟩
      exact ⟨m, hm, hr⟩
    · rintro ⟨m, hm, hr⟩
      exact ⟨m, Nat.zero_le m, hm, hr⟩
  constructor
  · rw [waitForCohnProvisioned, hok]
    exact hsimp
  · constructor
    · intro herr hex
      have hokk := (hok.mpr (hsimp.mpr hex))
      rw [waitForCohnProvisioned] at herr
      rw [hokk] at herr
      exact Option.noConfusion (herr) (fun h => Except.noConfusion h)
    · intro hnex
      rcases htot with hok2 | herr2
      · exact absurd (hsimp.mp (hok.mp hok2)) hnex
      · rw [waitForCohnProvisioned]
        exact herr2

/-- Witness for C4 at a concrete status sequence that becomes ready at the
fourth poll, with timeout 5 and interval 1. -/
theorem c4_cohn_poll_characterization_witness :
    (0 : ℚ) < 1 ∧
    ((waitForCohnProvisioned
        (fun n => if n = 3 then ⟨.provisioned, .connected, "10.0.0.5", "u", "p"⟩
          else ⟨.unprovisioned, .idle, "", "", ""⟩) 5 1 = some (.ok ()) ↔
      ∃ n : Nat, (n : ℚ) * 1 ≤ 5 ∧
        cohnReady ((fun n => if n = 3 then
            (⟨.provisioned, .connected, "10.0.0.5", "u", "p"⟩ : CohnStatusMsg)
          else ⟨.unprovisioned, .idle, "", "", ""⟩) n) = true) ∧
    (waitForCohnProvisioned
        (fun n => if n = 3 then ⟨.provisioned, .connected, "10.0.0.5", "u", "p"⟩
          else ⟨.unprovisioned, .idle, "", "", ""⟩) 5 1
        = some (.error .provisionTimeout) ↔
      ¬ ∃ n : Nat, (n : ℚ) * 1 ≤ 5 ∧
        cohnReady ((fun n => if n = 3 then
            (⟨.provisioned, .connected, "10.0.0.5", "u", "p"⟩ : CohnStatusMsg)
          else ⟨.unprovisioned, .idle, "", "", ""⟩) n) = true)) :=
  ⟨by norm_num,
    c4_cohn_poll_characterization
      (fun n => if n = 3 then ⟨.provisioned, .connected, "10.0.0.5", "u", "p"⟩
        else ⟨.unprovisioned, .idle, "", "", ""⟩) 5 1 (by norm_num)⟩

/-- C5: the claim that every online-only (HTTP-issuing) client operation
fails fast with OfflineModeError in OFFLINE mode is violated by the code:
tag_hilight issues its HTTP request with no mode check, while every other
HTTP-delegating method raises OfflineModeError first. -/
theorem c5_tag_hilight_unguarded :
    offlineCallEffect .tagHilight = .httpRequest ∧
    ¬ (∀ op : ClientOp, offlineCallEffect op = .offlineModeError) ∧
    (∀ op : ClientOp, op ≠ .tagHilight → offlineCallEffect op = .offlineModeError) := by
  decide

/-- C7: with the warning threshold at its configured default 4, the fatal
threshold at 6 and the maximum retry count at 12, a probe whose first six
attempts all fail with timeouts raises the unreachable-host fast-fail on
attempt 6 instead of continuing toward the 12th attempt. -/
theorem c7_readiness_fatal_threshold (outcomes : Nat → ProbeOutcome)
    (h : ∀ k, 1 ≤ k → k ≤ 6 → outcomes k = .exc true true) :
    waitForHttpsReady outcomes 12 4 6 = .unreachable 6 := by
  have h1 := h 1 (by norm_num) (by norm_num)
  have h2 := h 2 (by norm_num) (by norm_num)
  have h3 := h 3 (by norm_num) (by norm_num)
  have h4 := h 4 (by norm_num) (by norm_num)
  have h5 := h 5 (by norm_num) (by norm_num)
  have h6 := h 6 (by norm_num) (by norm_num)
  simp [waitForHttpsReady, probeAux, h1, h2, h3, h4, h5, h6]

/-- Witness for C7: the all-timeouts outcome sequence. -/
theorem c7_readiness_fatal_threshold_witness :
    waitForHttpsReady (fun _ => .exc true true) 12 4 6 = .unreachable 6 :=
  c7_readiness_fatal_threshold (fun _ => .exc true true) (fun _ _ _ => rfl)

/-- C8: the IP-refresh branch always persists the old certificate unchanged;
in particular when the initial status reports a non-empty IP the persisted
record carries exactly that IP together with the old certificate. -/
theorem c8_refresh_preserves_certificate (old : CohnCredentials)
    (st0 : CohnStatusMsg) (poll : Nat → CohnStatusMsg) :
    ((refreshCohnCredentials old st0 poll).1.certificate = old.certificate) ∧
    (hasIpStr st0.ipaddress = true →
      refreshCohnCredentials old st0 poll
        = ({ username := st0.username, password := st0.password,
             ip_address := st0.ipaddress, certificate := old.certificate }, true)) := by
  constructor
  · simp only [refreshCohnCredentials]
    split <;> split <;> rfl
  · intro hip
    have hc : ¬ (st0.state = .connecting ∧ hasIpStr st0.ipaddress = false) := by
      rw [hip]
      simp
    simp [refreshCohnCredentials, hc, hip]

/-- Witness for C8 at a concrete stored credential and status. -/
theorem c8_refresh_preserves_certificate_witness :
    ((refreshCohnCredentials ⟨"10.0.0.2", "usr", "pwd", "CERT-1"⟩
        ⟨.provisioned, .connected, "10.0.0.9", "usr2", "pwd2"⟩
        (fun _ => ⟨.unprovisioned, .idle, "", "", ""⟩)).1.certificate = "CERT-1") ∧
    (hasIpStr (CohnStatusMsg.mk .provisioned .connected "10.0.0.9" "usr2" "pwd2").ipaddress
        = true →
      refreshCohnCredentials ⟨"10.0.0.2", "usr", "pwd", "CERT-1"⟩
          ⟨.provisioned, .connected, "10.0.0.9", "usr2", "pwd2"⟩
          (fun _ => ⟨.unprovisioned, .idle, "", "", ""⟩)
        = ({ username := "usr2", password := "pwd2",
             ip_address := "10.0.0.9", certificate := "CERT-1" }, true)) :=
  c8_refresh_preserves_certificate ⟨"10.0.0.2", "usr", "pwd", "CERT-1"⟩
    ⟨.provisioned, .connected, "10.0.0.9", "usr2", "pwd2"⟩
    (fun _ => ⟨.unprovisioned, .idle, "", "", ""⟩)
